import Mathlib

/-!
Verification of `scripts/create_icon_simple.py` (momentum repository).

The script is a one-shot macOS icon generator: it paints a 1024x1024 vertical
gradient, overlays two flame polygons, writes ten resized PNGs into a staging
iconset directory and shells out to `iconutil` to package them, cleaning the
staging directory up only on success.

We embed the script shallowly:
* the gradient scanline colors are computed exactly over `ℚ` (the Python float
  expressions `c0 + (c1 - c0) * (y / 1024)` for `y < 1024` are dyadic rationals
  with small numerators, hence exact in IEEE double, so `ℚ` models them
  faithfully), with Python's `int()` truncation modelled by `pyInt`;
* the imaging library (PIL) is a black box: drawing primitives are fields of a
  `PIL` structure the pipeline is parameterised over; only the scanline fill
  primitive (`drawLine`, the one pixel-level fact the spec states) is given a
  concrete pixel semantics;
* filesystem and subprocess effects of `create_iconset` are modelled by
  explicit state passing over `FSState`, with Python exceptions as `Except`.
-/

namespace Momentum

/-- An RGB color, one integer per channel (Python tuples of ints). -/
abbrev RGB : Type := ℤ × ℤ × ℤ

/-- An RGBA color. -/
abbrev RGBA : Type := ℤ × ℤ × ℤ × ℤ

/-- Python `int()` applied to a (here: exactly representable) float:
truncation toward zero. -/
def pyInt (q : ℚ) : ℤ :=
  if 0 ≤ q then q.floor else q.ceil

/-- The color the gradient loop computes for scanline `y`
(`create_icon_simple.py` lines 24-28):
`r = int(16 + (6 - 16) * (y / size))`, `g = int(185 + (182 - 185) * (y / size))`,
`b = int(129 + (212 - 129) * (y / size))` with `size = 1024`. -/
def gradientColor (y : ℕ) : RGB :=
  (pyInt (16 + (6 - 16) * ((y : ℚ) / 1024)),
   pyInt (185 + (182 - 185) * ((y : ℚ) / 1024)),
   pyInt (129 + (212 - 129) * ((y : ℚ) / 1024)))

/-- Pixel semantics of `ImageDraw.line` for the horizontal (scanline) case, the
only case the script uses: `draw.line([(x1, y), (x2, y)], fill=c)` paints every
in-range pixel of row `y` between the two x-coordinates (inclusive) with `c`,
and leaves every other pixel unchanged. An image is a pixel function. -/
def drawLine (d : ℕ → ℕ → RGB) (p q : ℤ × ℤ) (c : RGB) : ℕ → ℕ → RGB :=
  fun x y =>
    if p.2 = q.2 ∧ (y : ℤ) = p.2 ∧ min p.1 q.1 ≤ (x : ℤ) ∧ (x : ℤ) ≤ max p.1 q.1
    then c else d x y

/-- `Image.new('RGB', (w, h))` with no fill argument: all pixels black. -/
def blackRGB : ℕ → ℕ → RGB := fun _ _ => (0, 0, 0)

/-- The gradient-background loop of `create_gradient_icon`
(lines 19-29), parameterised over the imaging primitives it uses:
`for y in range(size): draw.line([(0, y), (size, y)], fill=(r, g, b))`. -/
def gradientData {α : Type} (newRGB : ℕ → ℕ → α)
    (line : α → ℤ × ℤ → ℤ × ℤ → RGB → α) : α :=
  (List.range 1024).foldl
    (fun d (y : ℕ) => line d (0, (y : ℤ)) (1024, (y : ℤ)) (gradientColor y))
    (newRGB 1024 1024)

/-- The base gradient image, at the concrete pixel semantics. -/
def baseGradient : ℕ → ℕ → RGB :=
  gradientData (fun _ _ => blackRGB) drawLine

/-- The gradient loop truncated after `n` scanlines (proof device). -/
def gradFoldAux (n : ℕ) : ℕ → ℕ → RGB :=
  (List.range n).foldl
    (fun d (y : ℕ) => drawLine d (0, (y : ℤ)) (1024, (y : ℤ)) (gradientColor y))
    blackRGB

theorem gradFoldAux_pixel (n : ℕ) (x y : ℕ) (hy : y < n) (hx : x ≤ 1024) :
    gradFoldAux n x y = gradientColor y := by
  induction n with
  | zero => omega
  | succ m ih =>
    have hstep : gradFoldAux (m + 1)
        = drawLine (gradFoldAux m) (0, (m : ℤ)) (1024, (m : ℤ)) (gradientColor m) := by
      unfold gradFoldAux
      rw [List.range_succ, List.foldl_append]
      rfl
    rw [hstep]
    simp only [drawLine]
    by_cases hym : y = m
    · subst hym
      rw [if_pos]
      refine ⟨by trivial, by trivial, ?_, ?_⟩
      · have hmin : min (0 : ℤ) 1024 = 0 := by norm_num
        rw [hmin]
        exact Int.natCast_nonneg x
      · have hmax : max (0 : ℤ) 1024 = 1024 := by norm_num
        rw [hmax]
        exact_mod_cast hx
    · rw [if_neg]
      · exact ih (by omega)
      · intro hcontra
        exact hym (by exact_mod_cast hcontra.2.1)

theorem baseGradient_eq_aux : baseGradient = gradFoldAux 1024 := rfl

/-- `Rat.floor` agrees with the `FloorRing` floor on `ℚ`. -/
theorem rat_floor_eq_floor (q : ℚ) : q.floor = ⌊q⌋ := by
  rw [Rat.floor_def', ← Rat.floor_def]

theorem pyInt_of_nonneg (q : ℚ) (h : 0 ≤ q) : pyInt q = ⌊q⌋ := by
  unfold pyInt
  rw [if_pos h, rat_floor_eq_floor]

theorem gradientColor_zero : gradientColor 0 = (16, 185, 129) := by
  unfold gradientColor
  rw [pyInt_of_nonneg _ (by norm_num), pyInt_of_nonneg _ (by norm_num),
    pyInt_of_nonneg _ (by norm_num)]
  norm_num [Prod.ext_iff]

theorem gradientColor_last : gradientColor 1023 = (6, 182, 211) := by
  unfold gradientColor
  rw [pyInt_of_nonneg _ (by norm_num), pyInt_of_nonneg _ (by norm_num),
    pyInt_of_nonneg _ (by norm_num)]
  refine Prod.ext ?_ (Prod.ext ?_ ?_)
  · rw [Int.floor_eq_iff]
    constructor <;> norm_num
  · rw [Int.floor_eq_iff]
    constructor <;> norm_num
  · rw [Int.floor_eq_iff]
    constructor <;> norm_num

/-- C1. For the 1024x1024 base gradient, every pixel of scanline `y = 0` is the
start color `(16, 185, 129)`, and every pixel of scanline `y = 1023` is the
interpolated color `gradientColor 1023 = (6, 182, 211)`, each channel of which
is within 1 of the end color `(6, 182, 212)`. -/
theorem C1_gradient_scanline_endpoints (x : ℕ) (hx : x < 1024) :
    baseGradient x 0 = (16, 185, 129) ∧
    baseGradient x 1023 = gradientColor 1023 ∧
    gradientColor 1023 = (6, 182, 211) ∧
    |(gradientColor 1023).1 - 6| ≤ 1 ∧
    |(gradientColor 1023).2.1 - 182| ≤ 1 ∧
    |(gradientColor 1023).2.2 - 212| ≤ 1 := by
  have hx' : x ≤ 1024 := by omega
  have h0 : baseGradient x 0 = gradientColor 0 := by
    rw [baseGradient_eq_aux]
    exact gradFoldAux_pixel 1024 x 0 (by norm_num) hx'
  have h1023 : baseGradient x 1023 = gradientColor 1023 := by
    rw [baseGradient_eq_aux]
    exact gradFoldAux_pixel 1024 x 1023 (by norm_num) hx'
  refine ⟨?_, h1023, gradientColor_last, ?_, ?_, ?_⟩
  · rw [h0, gradientColor_zero]
  · rw [gradientColor_last]; norm_num
  · rw [gradientColor_last]; norm_num
  · rw [gradientColor_last]; norm_num

/-- Witness for C1 at `x = 0`. -/
theorem C1_gradient_scanline_endpoints_witness :
    (0 : ℕ) < 1024 ∧
    (baseGradient 0 0 = (16, 185, 129) ∧
     baseGradient 0 1023 = gradientColor 1023 ∧
     gradientColor 1023 = (6, 182, 211) ∧
     |(gradientColor 1023).1 - 6| ≤ 1 ∧
     |(gradientColor 1023).2.1 - 182| ≤ 1 ∧
     |(gradientColor 1023).2.2 - 212| ≤ 1) :=
  ⟨by norm_num, C1_gradient_scanline_endpoints 0 (by norm_num)⟩

/-- The imaging-library primitives `create_icon_simple.py` consumes, as a
black-box interface over an abstract pixel-data type `α`
(`Image.new`, `ImageDraw.line`, `ImageDraw.polygon` with optional outline and
stroke width, `Image.convert`, `Image.alpha_composite`, `Image.resize` with
the LANCZOS filter fixed). -/
structure PIL (α : Type) where
  newRGB : ℕ → ℕ → α
  newRGBA : ℕ → ℕ → RGBA → α
  line : α → ℤ × ℤ → ℤ × ℤ → RGB → α
  polygon : α → List (ℤ × ℤ) → RGBA → Option RGBA → ℕ → α
  convert : α → String → α
  alphaComposite : α → α → α
  resize : α → ℕ → ℕ → α

/-- Ambient state a run could in principle observe (randomness, clock,
environment variables). The script consults none of it, which is what the
determinism claim is about. -/
structure Ambient where
  randomSeed : ℕ
  clock : ℕ
  envVars : List (String × String)

/-- `flame_color = (255, 255, 255, 230)` (line 33). -/
def flame_color : RGBA := (255, 255, 255, 230)

/-- `flame_points` (lines 36-41): top, bottom left, middle, bottom right. -/
def flame_points : List (ℤ × ℤ) := [(512, 200), (350, 800), (512, 700), (674, 800)]

/-- `inner_flame` (lines 51-56). -/
def inner_flame : List (ℤ × ℤ) := [(512, 300), (420, 700), (512, 600), (604, 700)]

/-- The overlay raster data of `create_gradient_icon` (lines 43-57): a fully
transparent 1024x1024 RGBA raster, the outer flame polygon filled with
`flame_color` and an opaque white outline of width 8, then the inner flame
polygon filled with `(255, 255, 255, 180)` and no outline (PIL's default
stroke width 1 with no outline color). -/
def overlayData {α : Type} (P : PIL α) : α :=
  let overlay := P.newRGBA 1024 1024 (0, 0, 0, 0)
  let overlay := P.polygon overlay flame_points flame_color (some (255, 255, 255, 255)) 8
  P.polygon overlay inner_flame (255, 255, 255, 180) none 1

/-- `create_gradient_icon` (lines 17-63): gradient background, flame overlay,
alpha-composite onto the base converted to RGBA, flattened back to RGB.
The `Ambient` argument records that a run could observe ambient state;
the function, like the source, never reads it. -/
def create_gradient_icon {α : Type} (P : PIL α) (amb : Ambient) : α :=
  let img := gradientData P.newRGB P.line
  let img_rgba := P.convert img "RGBA"
  let img_rgba := P.alphaComposite img_rgba (overlayData P)
  P.convert img_rgba "RGB"

/-- A raster image: pixel dimensions plus abstract pixel data. `Image.new`
and `Image.resize` produce an image of exactly the requested dimensions;
drawing and conversion preserve dimensions. -/
structure Raster (α : Type) where
  width : ℕ
  height : ℕ
  data : α

/-- `img.resize((w, h), Image.Resampling.LANCZOS)`: a new raster of exactly
the requested dimensions whose data is the library's resample of the input. -/
def resizeRaster {α : Type} (P : PIL α) (im : Raster α) (w h : ℕ) : Raster α :=
  ⟨w, h, P.resize im.data w h⟩

/-- The Icon Size Table (lines 81-92): `sizes` in `create_iconset`. -/
def sizes : List (ℕ × String) :=
  [(16, "16x16"), (32, "16x16@2x"), (32, "32x32"), (64, "32x32@2x"),
   (128, "128x128"), (256, "128x128@2x"), (256, "256x256"), (512, "256x256@2x"),
   (512, "512x512"), (1024, "512x512@2x")]

/-- The size-generation loop (lines 95-98): for each table entry, an
independent LANCZOS resize of the base image, written to
`icon_<suffix>.png`, in table order. -/
def generate_all_sizes {α : Type} (P : PIL α) (base : Raster α) :
    List (String × Raster α) :=
  sizes.map fun p => ("icon_" ++ p.2 ++ ".png", resizeRaster P base p.1 p.1)

/-- C2. The size-generation step produces exactly ten files, named
`icon_<suffix>.png` for the ten table suffixes in order, and each written
image has exactly the declared square pixel dimensions. -/
theorem C2_generate_all_sizes_files {α : Type} (P : PIL α) (base : Raster α) :
    (generate_all_sizes P base).map Prod.fst =
      ["icon_16x16.png", "icon_16x16@2x.png", "icon_32x32.png", "icon_32x32@2x.png",
       "icon_128x128.png", "icon_128x128@2x.png", "icon_256x256.png", "icon_256x256@2x.png",
       "icon_512x512.png", "icon_512x512@2x.png"] ∧
    (generate_all_sizes P base).length = 10 ∧
    (generate_all_sizes P base).map (fun e => (e.2.width, e.2.height)) =
      [(16, 16), (32, 32), (32, 32), (64, 64), (128, 128), (256, 256), (256, 256),
       (512, 512), (512, 512), (1024, 1024)] := by
  refine ⟨?_, ?_, ?_⟩ <;> rfl

/-- C5. The writes follow Icon Size Table order; no entry is skipped or
deduplicated even though the pixel dimensions 32, 256 and 512 each occur
twice; and each entry is an independent resize of the same base image
(`P.resize base.data` applied directly to the base, never to a previously
generated image). -/
theorem C5_table_order_no_dedup {α : Type} (P : PIL α) (base : Raster α) :
    (generate_all_sizes P base).map Prod.fst =
      ["icon_16x16.png", "icon_16x16@2x.png", "icon_32x32.png", "icon_32x32@2x.png",
       "icon_128x128.png", "icon_128x128@2x.png", "icon_256x256.png", "icon_256x256@2x.png",
       "icon_512x512.png", "icon_512x512@2x.png"] ∧
    sizes.map Prod.fst = [16, 32, 32, 64, 128, 256, 256, 512, 512, 1024] ∧
    (sizes.map Prod.fst).count 32 = 2 ∧
    (sizes.map Prod.fst).count 256 = 2 ∧
    (sizes.map Prod.fst).count 512 = 2 ∧
    generate_all_sizes P base =
      sizes.map (fun p =>
        ("icon_" ++ p.2 ++ ".png", ⟨p.1, p.1, P.resize base.data p.1 p.1⟩)) := by
  refine ⟨?_, ?_, ?_, ?_, ?_, ?_⟩ <;> rfl

/-- C6. The overlay step draws, on a fully transparent 1024x1024 RGBA raster,
the outer flame polygon `[(512,200), (350,800), (512,700), (674,800)]` filled
with `(255,255,255,230)` and outlined opaque white with stroke width 8, then
the inner flame polygon `[(512,300), (420,700), (512,600), (604,700)]` filled
with `(255,255,255,180)` and no outline; the result is alpha-composited onto
the base converted to RGBA and flattened back to RGB. -/
theorem C6_flame_overlay_structure {α : Type} (P : PIL α) (amb : Ambient) :
    create_gradient_icon P amb =
      P.convert
        (P.alphaComposite
          (P.convert (gradientData P.newRGB P.line) "RGBA")
          (P.polygon
            (P.polygon (P.newRGBA 1024 1024 (0, 0, 0, 0))
              [(512, 200), (350, 800), (512, 700), (674, 800)]
              (255, 255, 255, 230) (some (255, 255, 255, 255)) 8)
            [(512, 300), (420, 700), (512, 600), (604, 700)]
            (255, 255, 255, 180) none 1))
        "RGB" ∧
    flame_points.length = 4 ∧ inner_flame.length = 4 := by
  exact ⟨rfl, rfl, rfl⟩

/-- Python exceptions the script can raise or catch. -/
inductive PyError : Type where
  | importError : PyError
  | calledProcessError : PyError
  | fileExistsError : PyError
deriving DecidableEq, Repr

/-- Filesystem state a run touches: whether `icon_temp` and
`icon_temp/AppIcon.iconset` exist as directories, the filenames inside the
iconset directory, and the filenames in the working directory. -/
structure FSState where
  iconTempIsDir : Bool
  iconsetIsDir : Bool
  iconsetFiles : List String
  cwdFiles : List String
deriving DecidableEq, Repr

/-- `Path.mkdir(exist_ok=...)`: raises `FileExistsError` when the directory
already exists and `exist_ok` is false; otherwise succeeds (creating the
directory or silently reusing the existing one). -/
def Path_mkdir (exist_ok : Bool) (alreadyDir : Bool) : Except PyError Unit :=
  if alreadyDir && !exist_ok then .error .fileExistsError else .ok ()

/-- `image.save(path)`: creates the file if absent, overwrites it (same name
kept, nothing else removed) if present. The directory listing is all this
model tracks. -/
def writeFile (files : List String) (name : String) : List String :=
  if name ∈ files then files else files ++ [name]

/-- The ten filenames the size loop writes, `icon_<suffix>.png` per table
entry. -/
def iconFileNames : List String :=
  sizes.map fun p => "icon_" ++ p.2 ++ ".png"

/-- The iconset directory listing after the size-generation loop, starting
from whatever was already there. -/
def stagedFiles (fs : FSState) : List String :=
  iconFileNames.foldl writeFile fs.iconsetFiles

/-- `subprocess.run(cmd, check=True)`: raises `CalledProcessError` exactly
when the command exits with a non-zero status. -/
def subprocess_run (cmd : List String) (exitCode : ℕ) : Except PyError Unit :=
  if exitCode = 0 then .ok () else .error .calledProcessError

/-- The packaging command (line 104): `iconutil -c icns icon_temp/AppIcon.iconset
-o AppIcon.icns`. -/
def iconutilCmd : List String :=
  ["iconutil", "-c", "icns", "icon_temp/AppIcon.iconset", "-o", "AppIcon.icns"]

/-- `create_iconset` (lines 65-127), filesystem/subprocess view, parameterised
by the exit status of the external `iconutil` invocation. Steps: create
`icon_temp` and `icon_temp/AppIcon.iconset` with `exist_ok=True`, write the ten
PNGs, run `iconutil` once under a `try/except CalledProcessError` that returns
`False`, and on success write `AppIcon.icns` (done by the tool) and
`shutil.rmtree(icon_temp)`, returning `True`. The third component of the
result is the trace of external commands invoked. -/
def create_iconset (iconutilExit : ℕ) (fs : FSState) :
    Except PyError (Bool × FSState × List (List String)) := do
  let _ ← Path_mkdir true fs.iconTempIsDir
  let _ ← Path_mkdir true fs.iconsetIsDir
  let fs1 : FSState :=
    { fs with iconTempIsDir := true, iconsetIsDir := true, iconsetFiles := stagedFiles fs }
  match subprocess_run iconutilCmd iconutilExit with
  | .error _ => pure (false, fs1, [iconutilCmd])
  | .ok _ =>
    let fs2 : FSState :=
      { fs1 with cwdFiles := writeFile fs1.cwdFiles "AppIcon.icns",
                 iconTempIsDir := false, iconsetIsDir := false, iconsetFiles := [] }
    pure (true, fs2, [iconutilCmd])

/-- The `__main__` block (lines 126-127): `sys.exit(0 if success else 1)`. -/
def mainExit (iconutilExit : ℕ) (fs : FSState) : Except PyError ℕ := do
  let r ← create_iconset iconutilExit fs
  pure (if r.1 then 0 else 1)

/-- The module import guard (lines 10-15): `try: from PIL import ...` with
`except ImportError:` running `pip install pillow` via
`subprocess.check_call` (which raises on non-zero exit) and re-importing. -/
def import_PIL (pilImportable : Bool) (pipInstallExit : ℕ) (pilImportableAfter : Bool) :
    Except PyError Unit :=
  if pilImportable then .ok ()
  else
    match subprocess_run ["pip", "install", "pillow"] pipInstallExit with
    | .error e => .error e
    | .ok _ => if pilImportableAfter then .ok () else .error .importError

/-- A whole run of the script as a process: module import guard, then
`create_iconset`, then `sys.exit`. -/
def runProgram (pilImportable : Bool) (pipInstallExit : ℕ) (pilImportableAfter : Bool)
    (iconutilExit : ℕ) (fs : FSState) : Except PyError ℕ := do
  let _ ← import_PIL pilImportable pipInstallExit pilImportableAfter
  mainExit iconutilExit fs

/-- `Except` result carries a value (no uncaught exception). -/
def isOkB {ε α : Type} : Except ε α → Bool
  | .ok _ => true
  | .error _ => false

/-- C9. The image-construction pipeline is deterministic: it reads no ambient
state (randomness, clock, environment), so any two runs over the same imaging
primitives produce identical rasters. -/
theorem C9_pipeline_deterministic {α : Type} (P : PIL α) (amb₁ amb₂ : Ambient) :
    create_gradient_icon P amb₁ = create_gradient_icon P amb₂ ∧
    generate_all_sizes P ⟨1024, 1024, create_gradient_icon P amb₁⟩ =
      generate_all_sizes P ⟨1024, 1024, create_gradient_icon P amb₂⟩ := by
  exact ⟨rfl, rfl⟩

theorem stagedFiles_of_empty (fs : FSState) (h : fs.iconsetFiles = []) :
    stagedFiles fs = iconFileNames := by
  unfold stagedFiles
  rw [h]
  decide

theorem mem_foldl_writeFile (names : List String) (l : List String) (s : String)
    (hs : s ∈ l) : s ∈ names.foldl writeFile l := by
  induction names generalizing l with
  | nil => exact hs
  | cons n ns ih =>
    apply ih
    unfold writeFile
    split
    · exact hs
    · exact List.mem_append_left _ hs

theorem self_mem_writeFile (files : List String) (name : String) :
    name ∈ writeFile files name := by
  unfold writeFile
  split
  · assumption
  · exact List.mem_append_right _ (List.mem_singleton.mpr rfl)

/-- C3. If `iconutil` exits non-zero, `create_iconset` catches the
`CalledProcessError` and returns `False` (no uncaught fault), the process
exits with status 1, and the staging tree — both directories and the ten
PNGs already written — is left behind on disk. -/
theorem C3_packaging_failure_leaves_staging (exitCode : ℕ) (fs : FSState)
    (hexit : exitCode ≠ 0) (hfresh : fs.iconsetFiles = []) :
    create_iconset exitCode fs =
      .ok (false,
        { fs with iconTempIsDir := true, iconsetIsDir := true,
                  iconsetFiles := iconFileNames },
        [iconutilCmd]) ∧
    mainExit exitCode fs = .ok 1 := by
  have hstaged := stagedFiles_of_empty fs hfresh
  constructor
  · simp [create_iconset, Path_mkdir, subprocess_run, hexit, hstaged]
    rfl
  · simp [mainExit, create_iconset, Path_mkdir, subprocess_run, hexit, hstaged]
    rfl

/-- Witness for C3: `iconutil` exit status 1 on a fresh filesystem. -/
theorem C3_packaging_failure_leaves_staging_witness :
    (1 : ℕ) ≠ 0 ∧ FSState.iconsetFiles ⟨false, false, [], []⟩ = [] ∧
    (create_iconset 1 ⟨false, false, [], []⟩ =
      .ok (false, ⟨true, true, iconFileNames, []⟩, [iconutilCmd]) ∧
     mainExit 1 ⟨false, false, [], []⟩ = .ok 1) :=
  ⟨by decide, rfl,
   C3_packaging_failure_leaves_staging 1 ⟨false, false, [], []⟩ (by decide) rfl⟩

/-- C4. If `iconutil` exits with status zero, `create_iconset` returns `True`,
the process exits with status 0, the output `AppIcon.icns` is present in the
working directory, and the whole staging tree (`icon_temp` with its nested
`AppIcon.iconset`) has been removed by `shutil.rmtree`. -/
theorem C4_packaging_success_cleans_staging (fs : FSState) :
    create_iconset 0 fs =
      .ok (true,
        { fs with iconTempIsDir := false, iconsetIsDir := false, iconsetFiles := [],
                  cwdFiles := writeFile fs.cwdFiles "AppIcon.icns" },
        [iconutilCmd]) ∧
    mainExit 0 fs = .ok 0 ∧
    "AppIcon.icns" ∈ writeFile fs.cwdFiles "AppIcon.icns" := by
  refine ⟨?_, ?_, self_mem_writeFile _ _⟩
  · simp [create_iconset, Path_mkdir, subprocess_run]
    rfl
  · simp [mainExit, create_iconset, Path_mkdir, subprocess_run]
    rfl

/-- C8. The packaging step invokes the external tool exactly once per run, as
`iconutil -c icns icon_temp/AppIcon.iconset -o AppIcon.icns`, with no retry on
either outcome, and signals failure exactly when the exit status is non-zero. -/
theorem C8_iconutil_invocation (exitCode : ℕ) (fs : FSState) :
    iconutilCmd =
      ["iconutil", "-c", "icns", "icon_temp/AppIcon.iconset", "-o", "AppIcon.icns"] ∧
    create_iconset exitCode fs =
      .ok (if exitCode = 0
        then (true,
          { fs with iconTempIsDir := false, iconsetIsDir := false, iconsetFiles := [],
                    cwdFiles := writeFile fs.cwdFiles "AppIcon.icns" },
          [iconutilCmd])
        else (false,
          { fs with iconTempIsDir := true, iconsetIsDir := true,
                    iconsetFiles := stagedFiles fs },
          [iconutilCmd])) := by
  refine ⟨rfl, ?_⟩
  by_cases h : exitCode = 0 <;>
    simp [create_iconset, Path_mkdir, subprocess_run, h] <;> rfl

/-- C7's counterexample: with the imaging library missing and the package
install succeeding, the module import guard handles the `ImportError` and the
run completes normally — the fault is not left unhandled as the claim states. -/
theorem C7_counterexample_import_guard :
    import_PIL false 0 true = Except.ok () ∧
    runProgram false 0 true 0 ⟨false, false, [], []⟩ = Except.ok 0 ∧
    Except.ok () ≠ (Except.error PyError.importError : Except PyError Unit) := by
  refine ⟨rfl, rfl, by simp⟩

/-- C7, amended. The program handles exactly two faults: a non-zero exit of
`iconutil` (caught in `create_iconset`, converted to a failure return) and the
imaging library failing to import at startup (caught once and handled by
running a package install and re-importing; the run then continues iff the
install exits zero and the re-import succeeds). A failing install or a failing
re-import, like every other fault, surfaces uncaught. -/
theorem C7_import_guard_amended (pipExit : ℕ) (after : Bool) (exitCode : ℕ)
    (fs : FSState) :
    import_PIL true pipExit after = .ok () ∧
    import_PIL false 0 after = (if after then .ok () else .error .importError) ∧
    import_PIL false (pipExit + 1) after = .error .calledProcessError ∧
    runProgram false (pipExit + 1) after exitCode fs = .error .calledProcessError ∧
    runProgram false 0 false exitCode fs = .error .importError ∧
    isOkB (create_iconset exitCode fs) = true := by
  refine ⟨rfl, ?_, ?_, ?_, ?_, ?_⟩
  · by_cases h : after <;> simp [import_PIL, subprocess_run, h]
  · simp [import_PIL, subprocess_run]
  · simp [runProgram, import_PIL, subprocess_run]
    rfl
  · simp [runProgram, import_PIL, subprocess_run]
    rfl
  · by_cases h : exitCode = 0 <;>
      simp [create_iconset, Path_mkdir, subprocess_run, isOkB, h] <;> rfl

/-- C10. Both staging directories are created with `exist_ok=True`, so their
creation never fails because they already exist; a leftover staging tree from
a previous failed run is reused silently, and pre-existing files in the
iconset directory survive to the point where the packaging step runs (the
size loop only adds or overwrites its own ten names, clearing nothing). -/
theorem C10_mkdir_exist_ok_reuse (fs : FSState) (s : String)
    (hs : s ∈ fs.iconsetFiles) :
    Path_mkdir true true = .ok () ∧
    Path_mkdir true fs.iconTempIsDir = .ok () ∧
    Path_mkdir true fs.iconsetIsDir = .ok () ∧
    s ∈ stagedFiles fs ∧
    isOkB (create_iconset 0 fs) = true ∧
    isOkB (create_iconset 1 fs) = true := by
  refine ⟨rfl, ?_, ?_, ?_, ?_, ?_⟩
  · simp [Path_mkdir]
  · simp [Path_mkdir]
  · exact mem_foldl_writeFile _ _ _ hs
  · simp [create_iconset, Path_mkdir, subprocess_run, isOkB]
    rfl
  · simp [create_iconset, Path_mkdir, subprocess_run, isOkB]
    rfl

/-- Witness for C10: a leftover staging tree containing `leftover.png`. -/
theorem C10_mkdir_exist_ok_reuse_witness :
    "leftover.png" ∈ FSState.iconsetFiles ⟨true, true, ["leftover.png"], []⟩ ∧
    (Path_mkdir true true = .ok () ∧
     Path_mkdir true (FSState.iconTempIsDir ⟨true, true, ["leftover.png"], []⟩) = .ok () ∧
     Path_mkdir true (FSState.iconsetIsDir ⟨true, true, ["leftover.png"], []⟩) = .ok () ∧
     "leftover.png" ∈ stagedFiles ⟨true, true, ["leftover.png"], []⟩ ∧
     isOkB (create_iconset 0 ⟨true, true, ["leftover.png"], []⟩) = true ∧
     isOkB (create_iconset 1 ⟨true, true, ["leftover.png"], []⟩) = true) :=
  ⟨List.mem_singleton.mpr rfl,
   C10_mkdir_exist_ok_reuse ⟨true, true, ["leftover.png"], []⟩ "leftover.png"
     (List.mem_singleton.mpr rfl)⟩

end Momentum
